import Mathlib

/-!
Verification of the per-eye analysis pipeline of the GazeTracking repository
(gaze_tracking/eye.py), as a shallow embedding in Lean 4.

Conventions of the embedding:
- dlib points are pairs of integers (structure Pt); a dlib
  full_object_detection is a list of points, and landmarks.part(i) is
  modelled by getD with a zero default (dlib only guarantees 68 points;
  claims that need a bound carry an explicit length hypothesis).
- an OpenCV image (numpy 2-d array) is a list of pixel rows, each row a
  list of grayscale values; numpy basic slicing a:b on an axis is modelled
  by pySlice, which follows the Python slicing rule (negative indices
  count from the end, indices are clamped to the valid range, the stop
  index is exclusive).
- Python float arithmetic on integer pixel coordinates is modelled
  exactly over the reals: math.hypot(dx, dy) is the real square root of
  dx^2 + dy^2, and Python float division raises ZeroDivisionError exactly
  when the denominator is zero, which eye.py catches and turns into None;
  the model returns an Option.
- int(x) truncation toward zero on a half-integer mean is Int.tdiv of the
  sum by 2 (T-division, which truncates toward zero like Python int()).
- in-place numpy / OpenCV mutation is made explicit by state passing:
  the operations return the buffer they wrote, and Eye.isolate returns,
  next to the updated Eye record, the final value of the caller's frame
  argument, so that absence of mutation of the caller's array is a
  provable equation.
- cv2.fillPoly's rasterized polygon interior and the two collaborator
  modules of the repository that are not part of the analyzed source
  (pupil.py's locator and calibration.py's per-frame best-threshold
  search) enter as explicit function parameters (inP, locate, best): the
  theorems hold for every choice of these functions.
-/

namespace Gaze

/-- A dlib landmark point: integer pixel coordinates. -/
structure Pt where
  x : ℤ
  y : ℤ
deriving DecidableEq, Repr

/-- A dlib full_object_detection: the ordered list of facial landmark points. -/
abbrev Landmarks := List Pt

/-- landmarks.part(i), with a zero point as the out-of-range default. -/
def part (l : Landmarks) (i : ℕ) : Pt := l.getD i ⟨0, 0⟩

/-- A grayscale image as a list of pixel rows (numpy 2-d array). -/
abbrev Frame := List (List ℕ)

/-- Eye.LEFT_EYE_POINTS from eye.py: the 68-landmark indices of the left eye. -/
def LEFT_EYE_POINTS : List ℕ := [36, 37, 38, 39, 40, 41]

/-- Eye.RIGHT_EYE_POINTS from eye.py: the 68-landmark indices of the right eye. -/
def RIGHT_EYE_POINTS : List ℕ := [42, 43, 44, 45, 46, 47]

/-- The fields of an Eye object.  Option models a field that __init__ sets
to None (or, for blinking, never sets at all on the invalid-side path);
the inner Option of blinking is the None that _blinking_ratio returns on a
ZeroDivisionError. -/
structure Eye where
  frame : Option Frame
  origin : Option (ℤ × ℤ)
  center : Option (ℚ × ℚ)
  pupil : Option (Option (ℤ × ℤ))
  landmark_points : Option (List (ℤ × ℤ))
  blinking : Option (Option ℝ)

/-- The state Eye.__init__ establishes before calling _analyze: every
field unset. -/
def Eye.init : Eye := ⟨none, none, none, none, none, none⟩

/-- Eye._middle_point: int((p1.x + p2.x) / 2) and likewise for y; Python
int() truncates toward zero, which is Int.tdiv. -/
def Eye.middle_point (p1 p2 : Pt) : ℤ × ℤ :=
  (Int.tdiv (p1.x + p2.x) 2, Int.tdiv (p1.y + p2.y) 2)

/-- The local left of Eye._blinking_ratio: the (x, y) of landmark
points[0]. -/
def cornerLeft (l : Landmarks) (points : List ℕ) : ℤ × ℤ :=
  ((part l (points.getD 0 0)).x, (part l (points.getD 0 0)).y)

/-- The local right of Eye._blinking_ratio: the (x, y) of landmark
points[3]. -/
def cornerRight (l : Landmarks) (points : List ℕ) : ℤ × ℤ :=
  ((part l (points.getD 3 0)).x, (part l (points.getD 3 0)).y)

/-- The local top of Eye._blinking_ratio: the truncated midpoint of
landmarks points[1] and points[2]. -/
def topMid (l : Landmarks) (points : List ℕ) : ℤ × ℤ :=
  Eye.middle_point (part l (points.getD 1 0)) (part l (points.getD 2 0))

/-- The local bottom of Eye._blinking_ratio: the truncated midpoint of
landmarks points[5] and points[4]. -/
def botMid (l : Landmarks) (points : List ℕ) : ℤ × ℤ :=
  Eye.middle_point (part l (points.getD 5 0)) (part l (points.getD 4 0))

/-- The squared eye width of Eye._blinking_ratio: math.hypot of the
coordinate differences of left and right, squared.  Kept as an exact
integer so that the zero test is decidable. -/
def eyeWidthSq (l : Landmarks) (points : List ℕ) : ℤ :=
  ((cornerLeft l points).1 - (cornerRight l points).1) ^ 2 +
    ((cornerLeft l points).2 - (cornerRight l points).2) ^ 2

/-- The squared eye height of Eye._blinking_ratio: math.hypot of the
coordinate differences of top and bottom, squared. -/
def eyeHeightSq (l : Landmarks) (points : List ℕ) : ℤ :=
  ((topMid l points).1 - (botMid l points).1) ^ 2 +
    ((topMid l points).2 - (botMid l points).2) ^ 2

/-- Eye._blinking_ratio: eye_width / eye_height with the hypot values as
real square roots; the ZeroDivisionError branch (eye_height == 0.0, i.e.
both midpoint coordinate differences are zero) yields None. -/
noncomputable def blinkingOf (l : Landmarks) (points : List ℕ) : Option ℝ :=
  if eyeHeightSq l points = 0 then none
  else some (Real.sqrt (eyeWidthSq l points) / Real.sqrt (eyeHeightSq l points))

/-- Modelled from the spec: calibration.py is not part of the analyzed
source.  Per spec section 4.3 the Calibration Manager keeps, per side, a
running history of recorded best-threshold values, and a fixed sample
count (nb_frames) both sides must reach. -/
structure Calibration where
  nb_frames : ℕ
  thresholds_left : List ℕ
  thresholds_right : List ℕ
deriving DecidableEq, Repr

/-- Modelled from the spec: is_complete() reports whether both sides have
reached the sample count. -/
def Calibration.is_complete (c : Calibration) : Bool :=
  decide (c.nb_frames ≤ c.thresholds_left.length) &&
    decide (c.nb_frames ≤ c.thresholds_right.length)

/-- Modelled from the spec: evaluate(eye_frame, side) records the
threshold that best matches the target region count for this eye frame
into that side's running history; the per-frame best-threshold search is
the explicit parameter best. -/
def Calibration.evaluate (c : Calibration) (best : Frame → ℕ) (f : Frame)
    (side : ℤ) : Calibration :=
  if side = 0 then ⟨c.nb_frames, c.thresholds_left ++ [best f], c.thresholds_right⟩
  else if side = 1 then ⟨c.nb_frames, c.thresholds_left, c.thresholds_right ++ [best f]⟩
  else c

/-- Modelled from the spec: threshold(side) is the (truncated) average of
the side's recorded values, provisional before completion and frozen
after. -/
def Calibration.threshold (c : Calibration) (side : ℤ) : ℕ :=
  if side = 0 then c.thresholds_left.sum / c.thresholds_left.length
  else c.thresholds_right.sum / c.thresholds_right.length

/-- Python / numpy basic slicing l[a:b] along one axis: a negative index
counts from the end, both indices are clamped to the valid range, and the
stop index is exclusive. -/
def pySlice {α : Type} (l : List α) (a b : ℤ) : List α :=
  (l.take (if b < 0 then max 0 (b + l.length) else min b (l.length : ℤ)).toNat).drop
    (if a < 0 then max 0 (a + l.length) else min a (l.length : ℤ)).toNat

/-- frame.shape[1]: the row length of a numpy image (rows are uniform). -/
def frameWidth (f : Frame) : ℕ := (f.headD []).length

/-- Pixel read f[y][x] with zero default. -/
def pixelAt (f : Frame) (x y : ℕ) : ℕ := (f.getD y []).getD x 0

/-- frame.copy(): a fresh buffer holding the same pixels. -/
def copyFrame (f : Frame) : Frame := f

/-- The masking steps of Eye._isolate: black_frame is all zeros, mask is
all 255 with the polygon interior filled to 0 by cv2.fillPoly, and
cv2.bitwise_not(black_frame, frame.copy(), mask=mask) writes 255 (the
complement of black) into the copy wherever the mask is nonzero, keeping
the original pixel inside the polygon.  The rasterized polygon interior
test of cv2.fillPoly is the parameter inP. -/
def maskedEye (inP : List (ℤ × ℤ) → ℕ → ℕ → Bool) (f : Frame)
    (region : List (ℤ × ℤ)) : Frame :=
  (List.range f.length).map (fun y =>
    (List.range (frameWidth f)).map (fun x =>
      if inP region x y then pixelAt (copyFrame f) x y else 255))

/-- The region array of Eye._isolate: the (x, y) pairs of the selected
landmark points, in order. -/
def regionOf (l : Landmarks) (points : List ℕ) : List (ℤ × ℤ) :=
  points.map (fun p => ((part l p).x, (part l p).y))

/-- np.min over a nonempty integer list (fold from the head). -/
def listMin (l : List ℤ) : ℤ := l.foldl min (l.headD 0)

/-- np.max over a nonempty integer list (fold from the head). -/
def listMax (l : List ℤ) : ℤ := l.foldl max (l.headD 0)

/-- np.min(region[:, 0]). -/
def minX (r : List (ℤ × ℤ)) : ℤ := listMin (r.map Prod.fst)

/-- np.max(region[:, 0]). -/
def maxX (r : List (ℤ × ℤ)) : ℤ := listMax (r.map Prod.fst)

/-- np.min(region[:, 1]). -/
def minY (r : List (ℤ × ℤ)) : ℤ := listMin (r.map Prod.snd)

/-- np.max(region[:, 1]). -/
def maxY (r : List (ℤ × ℤ)) : ℤ := listMax (r.map Prod.snd)

/-- Eye._isolate, statement by statement: build the region array and store
it in landmark_points, mask the frame outside the eye polygon (writing
into a copy of the caller's frame), slice rows min_y-5 : max_y+5 and
columns min_x-5 : max_x+5 of the masked image into self.frame, record
self.origin = (min_x-5, min_y-5) and self.center from the crop's shape.
The second component of the result is the final value of the caller's
frame array, which no statement of _isolate writes to. -/
def Eye.isolate (inP : List (ℤ × ℤ) → ℕ → ℕ → Bool) (e : Eye) (frame : Frame)
    (l : Landmarks) (points : List ℕ) : Eye × Frame :=
  let region := regionOf l points
  let eye := maskedEye inP frame region
  let mnx := minX region - 5
  let mxx := maxX region + 5
  let mny := minY region - 5
  let mxy := maxY region + 5
  let cropped := (pySlice eye mny mxy).map (fun row => pySlice row mnx mxx)
  (⟨some cropped, some (mnx, mny),
      some (((frameWidth cropped : ℚ)) / 2, ((cropped.length : ℚ)) / 2),
      e.pupil, some region, e.blinking⟩,
    frame)

/-- The body of Eye._analyze after the side dispatch: set self.blinking,
run _isolate, feed the calibration if it is not complete, and construct
the Pupil from the isolated frame and the calibration's threshold for
this side.  The external Pupil locator (pupil.py is not part of the
analyzed source) is the parameter locate; the Eye keeps its result. -/
noncomputable def Eye.analyzeCore (inP : List (ℤ × ℤ) → ℕ → ℕ → Bool)
    (locate : Frame → ℕ → Option (ℤ × ℤ)) (best : Frame → ℕ) (e : Eye)
    (original_frame : Frame) (l : Landmarks) (points : List ℕ) (side : ℤ)
    (cal : Calibration) : Eye × Calibration × Frame :=
  let e1 : Eye := ⟨e.frame, e.origin, e.center, e.pupil, e.landmark_points,
    some (blinkingOf l points)⟩
  let p := Eye.isolate inP e1 original_frame l points
  let e2 := p.1
  let cal2 := if cal.is_complete then cal
    else cal.evaluate best (e2.frame.getD []) side
  let e3 : Eye := ⟨e2.frame, e2.origin, e2.center,
    some (locate (e2.frame.getD []) (cal2.threshold side)), e2.landmark_points,
    e2.blinking⟩
  (e3, cal2, p.2)

/-- Eye._analyze: dispatch on the side selector (0 selects
LEFT_EYE_POINTS, 1 selects RIGHT_EYE_POINTS, anything else returns with
no field assigned and the calibration untouched). -/
noncomputable def Eye.analyze (inP : List (ℤ × ℤ) → ℕ → ℕ → Bool)
    (locate : Frame → ℕ → Option (ℤ × ℤ)) (best : Frame → ℕ) (e : Eye)
    (original_frame : Frame) (l : Landmarks) (side : ℤ) (cal : Calibration) :
    Eye × Calibration × Frame :=
  if side = 0 then
    Eye.analyzeCore inP locate best e original_frame l LEFT_EYE_POINTS side cal
  else if side = 1 then
    Eye.analyzeCore inP locate best e original_frame l RIGHT_EYE_POINTS side cal
  else (e, cal, original_frame)

/-- Eye.__init__: set every field to None, then run _analyze. -/
noncomputable def Eye.construct (inP : List (ℤ × ℤ) → ℕ → ℕ → Bool)
    (locate : Frame → ℕ → Option (ℤ × ℤ)) (best : Frame → ℕ)
    (original_frame : Frame) (l : Landmarks) (side : ℤ) (cal : Calibration) :
    Eye × Calibration × Frame :=
  Eye.analyze inP locate best Eye.init original_frame l side cal

/-- Spec-side definition (refinement target): the Euclidean distance
between two integer points, as a real number. -/
noncomputable def euclidDist (p q : ℤ × ℤ) : ℝ :=
  Real.sqrt (((p.1 - q.1 : ℤ) : ℝ) ^ 2 + ((p.2 - q.2 : ℤ) : ℝ) ^ 2)

/-- Spec-side definition (claim wording): the horizontal distance between
two integer points. -/
noncomputable def horizDist (p q : ℤ × ℤ) : ℝ := |((p.1 - q.1 : ℤ) : ℝ)|

/-- Spec-side definition (claim wording): the vertical distance between
two integer points. -/
noncomputable def vertDist (p q : ℤ × ℤ) : ℝ := |((p.2 - q.2 : ℤ) : ℝ)|

/-- Spec-side definition (claim wording): the sub-image of every pixel
(x, y) with x0 ≤ x ≤ x1 and y0 ≤ y ≤ y1 — a bounding box read
inclusively on all sides. -/
def cropIncl (f : Frame) (x0 y0 x1 y1 : ℤ) : Frame :=
  ((f.drop y0.toNat).take (y1 - y0 + 1).toNat).map
    (fun row => (row.drop x0.toNat).take (x1 - x0 + 1).toNat)

/-- Spec-side definition (amended wording): the sub-image of every pixel
(x, y) with x0 ≤ x < x1 and y0 ≤ y < y1 — half-open at the far sides. -/
def cropHO (f : Frame) (x0 y0 x1 y1 : ℤ) : Frame :=
  ((f.drop y0.toNat).take (y1 - y0).toNat).map
    (fun row => (row.drop x0.toNat).take (x1 - x0).toNat)

/-- Concrete collaborator instance: a polygon-interior test that accepts
every pixel. -/
def inP0 : List (ℤ × ℤ) → ℕ → ℕ → Bool := fun _ _ _ => true

/-- Concrete collaborator instance: a pupil locator that records the
threshold it was handed. -/
def loc0 : Frame → ℕ → Option (ℤ × ℤ) := fun _ t => some ((t : ℤ), (t : ℤ))

/-- Concrete collaborator instance: a best-threshold search returning a
fixed value. -/
def best0 : Frame → ℕ := fun _ => 99

/-- A fresh calibration: sample target 20, no recorded values. -/
def cal0 : Calibration := ⟨20, [], []⟩

/-- A calibration whose left side has reached its sample target (2
samples) while the right side has none. -/
def cal4 : Calibration := ⟨2, [10, 10], []⟩

/-- A 20 by 20 test frame of constant pixels. -/
def F0 : Frame := List.replicate 20 (List.replicate 20 7)

/-- Landmarks whose left-eye entries 36..41 are (0,0), (0,0), (0,0),
(3,4), (0,2), (0,2): corner points (0,0) and (3,4), lid midpoints (0,0)
and (0,2). -/
def L1 : Landmarks :=
  List.replicate 36 ⟨0, 0⟩ ++
    [⟨0, 0⟩, ⟨0, 0⟩, ⟨0, 0⟩, ⟨3, 4⟩, ⟨0, 2⟩, ⟨0, 2⟩] ++ List.replicate 6 ⟨0, 0⟩

/-- The spec scenario landmarks: left-eye entries 36..41 are (36,10),
(40,5), (44,5), (48,10), (44,14), (40,14); right-eye entries 42..47 hold
the mirrored geometry (56,10), (60,5), (64,5), (68,10), (64,14), (60,14)
in canonical order. -/
def L8 : Landmarks :=
  List.replicate 36 ⟨0, 0⟩ ++
    [⟨36, 10⟩, ⟨40, 5⟩, ⟨44, 5⟩, ⟨48, 10⟩, ⟨44, 14⟩, ⟨40, 14⟩] ++
    [⟨56, 10⟩, ⟨60, 5⟩, ⟨64, 5⟩, ⟨68, 10⟩, ⟨64, 14⟩, ⟨60, 14⟩]

/-- Degenerate landmarks: every point equal, so the two lid midpoints of
either eye coincide. -/
def L2 : Landmarks := List.replicate 48 ⟨3, 3⟩

/-- A 6-point eye for exercising isolation directly: corners (8,8) and
(11,8), upper lid (9,7), (10,7), lower lid (10,9), (9,9). -/
def L3 : Landmarks := [⟨8, 8⟩, ⟨9, 7⟩, ⟨10, 7⟩, ⟨11, 8⟩, ⟨10, 9⟩, ⟨9, 9⟩]

lemma foldl_min_le (l : List ℤ) (a : ℤ) : l.foldl min a ≤ a := by
  induction l generalizing a with
  | nil => simp
  | cons x xs ih => exact le_trans (ih (min a x)) (min_le_left a x)

lemma le_foldl_max (l : List ℤ) (a : ℤ) : a ≤ l.foldl max a := by
  induction l generalizing a with
  | nil => simp
  | cons x xs ih => exact le_trans (le_max_left a x) (ih (max a x))

lemma listMin_le_listMax (l : List ℤ) : listMin l ≤ listMax l :=
  le_trans (foldl_min_le _ _) (le_foldl_max _ _)

lemma pySlice_eq_drop_take {α : Type} (l : List α) (a b : ℤ) (h0 : 0 ≤ a)
    (hab : a ≤ b) (hbn : b ≤ (l.length : ℤ)) :
    pySlice l a b = (l.drop a.toNat).take (b - a).toNat := by
  unfold pySlice
  rw [if_neg (by omega), if_neg (by omega),
    show min b (l.length : ℤ) = b by omega, show min a (l.length : ℤ) = a by omega,
    List.drop_take]
  congr 1
  omega

lemma sqrt_eyeWidthSq (l : Landmarks) (points : List ℕ) :
    Real.sqrt ((eyeWidthSq l points : ℤ) : ℝ) =
      euclidDist (cornerLeft l points) (cornerRight l points) := by
  unfold eyeWidthSq euclidDist
  congr 1
  push_cast
  ring

lemma sqrt_eyeHeightSq (l : Landmarks) (points : List ℕ) :
    Real.sqrt ((eyeHeightSq l points : ℤ) : ℝ) =
      euclidDist (topMid l points) (botMid l points) := by
  unfold eyeHeightSq euclidDist
  congr 1
  push_cast
  ring

lemma blinkingOf_eq_some (l : Landmarks) (points : List ℕ) (w h : ℤ)
    (hw : eyeWidthSq l points = w) (hh : eyeHeightSq l points = h)
    (hne : h ≠ 0) :
    blinkingOf l points = some (Real.sqrt (w : ℝ) / Real.sqrt (h : ℝ)) := by
  unfold blinkingOf
  rw [hw, hh, if_neg hne]

lemma construct_blinking (inP : List (ℤ × ℤ) → ℕ → ℕ → Bool)
    (locate : Frame → ℕ → Option (ℤ × ℤ)) (best : Frame → ℕ) (F : Frame)
    (l : Landmarks) (side : ℤ) (cal : Calibration) (hs : side = 0 ∨ side = 1) :
    (Eye.construct inP locate best F l side cal).1.blinking =
      some (blinkingOf l
        (if side = 0 then LEFT_EYE_POINTS else RIGHT_EYE_POINTS)) := by
  rcases hs with h | h <;> subst h <;> rfl

lemma sqrt_eq_of_sq (a b : ℝ) (hb : 0 ≤ b) (hab : b ^ 2 = a) :
    Real.sqrt a = b := by
  rw [← hab]
  exact Real.sqrt_sq hb

/-- C1 (counterexample): with corner points (0,0) and (3,4) and lid
midpoints (0,0) and (0,2), analyze computes a blinking value of 5/2 (the
Euclidean corner distance 5 over the Euclidean midpoint distance 2),
while the horizontal corner distance over the vertical midpoint distance
is 3/2, so the claimed formula does not match the computed value. -/
theorem analyze_blinking_horizontal_cex :
    (Eye.construct inP0 loc0 best0 F0 L1 0 cal0).1.blinking =
        some (some ((5 : ℝ) / 2)) ∧
      horizDist (cornerLeft L1 LEFT_EYE_POINTS) (cornerRight L1 LEFT_EYE_POINTS) /
          vertDist (topMid L1 LEFT_EYE_POINTS) (botMid L1 LEFT_EYE_POINTS) =
        (3 : ℝ) / 2 ∧
      ((5 : ℝ) / 2) ≠ ((3 : ℝ) / 2) := by
  refine ⟨?_, ?_, by norm_num⟩
  · rw [construct_blinking inP0 loc0 best0 F0 L1 0 cal0 (Or.inl rfl),
      blinkingOf_eq_some _ _ 25 4 (by decide) (by decide) (by decide),
      sqrt_eq_of_sq _ 5 (by norm_num) (by norm_num),
      sqrt_eq_of_sq _ 2 (by norm_num) (by norm_num)]
  · rw [show cornerLeft L1 LEFT_EYE_POINTS = (0, 0) from by decide,
      show cornerRight L1 LEFT_EYE_POINTS = (3, 4) from by decide,
      show topMid L1 LEFT_EYE_POINTS = (0, 0) from by decide,
      show botMid L1 LEFT_EYE_POINTS = (0, 2) from by decide]
    unfold horizDist vertDist
    norm_num

/-- C1 (amended): for a valid side and landmarks whose lid midpoints do
not coincide, analyze sets the blinking field to the Euclidean distance
between the two corner points (indices 0 and 3 of the 6 eye points)
divided by the Euclidean distance between the truncated midpoints of the
upper-lid and lower-lid point pairs. -/
theorem analyze_blinking_euclidean (inP : List (ℤ × ℤ) → ℕ → ℕ → Bool)
    (locate : Frame → ℕ → Option (ℤ × ℤ)) (best : Frame → ℕ) (F : Frame)
    (l : Landmarks) (side : ℤ) (cal : Calibration) (hs : side = 0 ∨ side = 1)
    (hz : eyeHeightSq l (if side = 0 then LEFT_EYE_POINTS else RIGHT_EYE_POINTS) ≠ 0) :
    (Eye.construct inP locate best F l side cal).1.blinking =
      some (some
        (euclidDist
            (cornerLeft l (if side = 0 then LEFT_EYE_POINTS else RIGHT_EYE_POINTS))
            (cornerRight l (if side = 0 then LEFT_EYE_POINTS else RIGHT_EYE_POINTS)) /
          euclidDist
            (topMid l (if side = 0 then LEFT_EYE_POINTS else RIGHT_EYE_POINTS))
            (botMid l (if side = 0 then LEFT_EYE_POINTS else RIGHT_EYE_POINTS)))) := by
  rw [construct_blinking inP locate best F l side cal hs,
    blinkingOf_eq_some _ _ _ _ rfl rfl hz, sqrt_eyeWidthSq, sqrt_eyeHeightSq]

/-- Witness for C1 (amended) at the concrete landmarks L1, side 0. -/
theorem analyze_blinking_euclidean_witness :
    (Eye.construct inP0 loc0 best0 F0 L1 0 cal0).1.blinking =
      some (some
        (euclidDist (cornerLeft L1 LEFT_EYE_POINTS) (cornerRight L1 LEFT_EYE_POINTS) /
          euclidDist (topMid L1 LEFT_EYE_POINTS) (botMid L1 LEFT_EYE_POINTS))) := by
  have h := analyze_blinking_euclidean inP0 loc0 best0 F0 L1 0 cal0 (Or.inl rfl)
    (by decide)
  simpa using h

/-- C2: for a valid side, when the truncated upper-lid and lower-lid
midpoints coincide the blinking computation yields None (no ratio) rather
than an error, and analyze still assigns the blinking field. -/
theorem analyze_blinking_degenerate (inP : List (ℤ × ℤ) → ℕ → ℕ → Bool)
    (locate : Frame → ℕ → Option (ℤ × ℤ)) (best : Frame → ℕ) (F : Frame)
    (l : Landmarks) (side : ℤ) (cal : Calibration) (hs : side = 0 ∨ side = 1)
    (hz : eyeHeightSq l (if side = 0 then LEFT_EYE_POINTS else RIGHT_EYE_POINTS) = 0) :
    (Eye.construct inP locate best F l side cal).1.blinking = some none := by
  rw [construct_blinking inP locate best F l side cal hs]
  unfold blinkingOf
  rw [if_pos hz]

/-- Witness for C2 at the degenerate landmarks L2, side 0. -/
theorem analyze_blinking_degenerate_witness :
    (Eye.construct inP0 loc0 best0 F0 L2 0 cal0).1.blinking = some none :=
  analyze_blinking_degenerate inP0 loc0 best0 F0 L2 0 cal0 (Or.inl rfl) (by decide)

/-- C8 (counterexample): at the spec scenario coordinates (36,10), (40,5),
(44,5), (48,10), (44,14), (40,14) the computed blinking value is 12/9 =
4/3, which is not approximately 1.5 (it differs from 3/2 by 1/6). -/
theorem scenario_ratio_cex :
    (Eye.construct inP0 loc0 best0 F0 L8 0 cal0).1.blinking =
        some (some ((4 : ℝ) / 3)) ∧
      ¬ |((4 : ℝ) / 3) - 3 / 2| < 1 / 10 := by
  refine ⟨?_, by
    rw [abs_sub_comm, show (3 : ℝ) / 2 - 4 / 3 = 1 / 6 by norm_num,
      show |(1 : ℝ) / 6| = 1 / 6 from abs_of_pos (by norm_num)]
    norm_num⟩
  rw [construct_blinking inP0 loc0 best0 F0 L8 0 cal0 (Or.inl rfl),
    blinkingOf_eq_some _ _ 144 81 (by decide) (by decide) (by decide),
    sqrt_eq_of_sq _ 12 (by norm_num) (by norm_num),
    sqrt_eq_of_sq _ 9 (by norm_num) (by norm_num)]
  norm_num

/-- C8 (amended): at the spec scenario coordinates the blinking value is
4/3 (width 12 over height 9: the listed points span 14 - 5 = 9 vertical
pixels, not 8), and the mirrored right-eye geometry analyzed as side 1
produces the same value. -/
theorem scenario_ratio_four_thirds :
    (Eye.construct inP0 loc0 best0 F0 L8 0 cal0).1.blinking =
        some (some ((4 : ℝ) / 3)) ∧
      (Eye.construct inP0 loc0 best0 F0 L8 1 cal0).1.blinking =
        some (some ((4 : ℝ) / 3)) := by
  constructor
  · rw [construct_blinking inP0 loc0 best0 F0 L8 0 cal0 (Or.inl rfl),
      blinkingOf_eq_some _ _ 144 81 (by decide) (by decide) (by decide),
      sqrt_eq_of_sq _ 12 (by norm_num) (by norm_num),
      sqrt_eq_of_sq _ 9 (by norm_num) (by norm_num)]
    norm_num
  · rw [construct_blinking inP0 loc0 best0 F0 L8 1 cal0 (Or.inr rfl),
      blinkingOf_eq_some _ _ 144 81 (by decide) (by decide) (by decide),
      sqrt_eq_of_sq _ 12 (by norm_num) (by norm_num),
      sqrt_eq_of_sq _ 9 (by norm_num) (by norm_num)]
    norm_num

/-- C5: for a side selector other than 0 and 1, analyze returns at the
side dispatch: the constructed Eye keeps every field of Eye.init unset
(frame, origin, center, landmark points, pupil all None), the calibration
state is returned untouched, and the caller's frame is unchanged; no
error path exists. -/
theorem analyze_invalid_side (inP : List (ℤ × ℤ) → ℕ → ℕ → Bool)
    (locate : Frame → ℕ → Option (ℤ × ℤ)) (best : Frame → ℕ) (F : Frame)
    (l : Landmarks) (side : ℤ) (cal : Calibration) (h0 : side ≠ 0)
    (h1 : side ≠ 1) :
    Eye.construct inP locate best F l side cal = (Eye.init, cal, F) ∧
      Eye.init.frame = none ∧ Eye.init.origin = none ∧ Eye.init.center = none ∧
      Eye.init.landmark_points = none ∧ Eye.init.pupil = none := by
  refine ⟨?_, rfl, rfl, rfl, rfl, rfl⟩
  unfold Eye.construct Eye.analyze
  rw [if_neg h0, if_neg h1]

/-- Witness for C5 at the concrete invalid side selector 2. -/
theorem analyze_invalid_side_witness :
    Eye.construct inP0 loc0 best0 F0 L1 2 cal0 = (Eye.init, cal0, F0) ∧
      Eye.init.frame = none ∧ Eye.init.origin = none ∧ Eye.init.center = none ∧
      Eye.init.landmark_points = none ∧ Eye.init.pupil = none :=
  analyze_invalid_side inP0 loc0 best0 F0 L1 2 cal0 (by decide) (by decide)

/-- C6: on a landmark set of at least 48 points, analyze with side 0
stores exactly the points of landmark indices 36, 37, 38, 39, 40, 41 (in
this order) as the eye region, and analyze with side 1 stores exactly the
points of landmark indices 42, 43, 44, 45, 46, 47. -/
theorem analyze_selects_eye_indices (inP : List (ℤ × ℤ) → ℕ → ℕ → Bool)
    (locate : Frame → ℕ → Option (ℤ × ℤ)) (best : Frame → ℕ) (F : Frame)
    (l : Landmarks) (cal : Calibration) (h : 48 ≤ l.length) :
    (Eye.construct inP locate best F l 0 cal).1.landmark_points =
        some [((l[36]).x, (l[36]).y), ((l[37]).x, (l[37]).y),
          ((l[38]).x, (l[38]).y), ((l[39]).x, (l[39]).y),
          ((l[40]).x, (l[40]).y), ((l[41]).x, (l[41]).y)] ∧
      (Eye.construct inP locate best F l 1 cal).1.landmark_points =
        some [((l[42]).x, (l[42]).y), ((l[43]).x, (l[43]).y),
          ((l[44]).x, (l[44]).y), ((l[45]).x, (l[45]).y),
          ((l[46]).x, (l[46]).y), ((l[47]).x, (l[47]).y)] := by
  have g : ∀ i : ℕ, (hi : i < l.length) → l.getD i ⟨0, 0⟩ = l[i] :=
    fun i hi => List.getD_eq_getElem l _ hi
  have e0 : (Eye.construct inP locate best F l 0 cal).1.landmark_points =
      some (regionOf l LEFT_EYE_POINTS) := rfl
  have e1 : (Eye.construct inP locate best F l 1 cal).1.landmark_points =
      some (regionOf l RIGHT_EYE_POINTS) := rfl
  rw [e0, e1]
  unfold regionOf LEFT_EYE_POINTS RIGHT_EYE_POINTS part
  simp only [List.map]
  rw [g 36 (by omega), g 37 (by omega), g 38 (by omega), g 39 (by omega),
    g 40 (by omega), g 41 (by omega), g 42 (by omega), g 43 (by omega),
    g 44 (by omega), g 45 (by omega), g 46 (by omega), g 47 (by omega)]
  exact ⟨rfl, rfl⟩

/-- Witness for C6 at a concrete 48-point landmark set. -/
theorem analyze_selects_eye_indices_witness :
    (Eye.construct inP0 loc0 best0 F0 L8 0 cal0).1.landmark_points =
        some [((L8[36]).x, (L8[36]).y), ((L8[37]).x, (L8[37]).y),
          ((L8[38]).x, (L8[38]).y), ((L8[39]).x, (L8[39]).y),
          ((L8[40]).x, (L8[40]).y), ((L8[41]).x, (L8[41]).y)] ∧
      (Eye.construct inP0 loc0 best0 F0 L8 1 cal0).1.landmark_points =
        some [((L8[42]).x, (L8[42]).y), ((L8[43]).x, (L8[43]).y),
          ((L8[44]).x, (L8[44]).y), ((L8[45]).x, (L8[45]).y),
          ((L8[46]).x, (L8[46]).y), ((L8[47]).x, (L8[47]).y)] :=
  analyze_selects_eye_indices inP0 loc0 best0 F0 L8 cal0 (by decide)

/-- C7: isolation is deterministic and idempotent: running it a second
time, on the Eye state left by the first run and with the same frame and
landmarks, yields the same Eye state again — in particular a bit-identical
cropped frame and an identical origin. -/
theorem isolate_idempotent (inP : List (ℤ × ℤ) → ℕ → ℕ → Bool) (e : Eye)
    (F : Frame) (l : Landmarks) (points : List ℕ) :
    Eye.isolate inP (Eye.isolate inP e F l points).1 F l points =
        Eye.isolate inP e F l points ∧
      (Eye.isolate inP (Eye.isolate inP e F l points).1 F l points).1.frame =
        (Eye.isolate inP e F l points).1.frame ∧
      (Eye.isolate inP (Eye.isolate inP e F l points).1 F l points).1.origin =
        (Eye.isolate inP e F l points).1.origin :=
  ⟨rfl, rfl, rfl⟩

/-- C9: analyze never writes to the caller's frame: the final value of
the caller's frame buffer equals the frame that was passed in, for every
side selector, and already the isolation step alone preserves it (the
masking writes into frame.copy(), not into frame). -/
theorem analyze_preserves_caller_frame (inP : List (ℤ × ℤ) → ℕ → ℕ → Bool)
    (locate : Frame → ℕ → Option (ℤ × ℤ)) (best : Frame → ℕ) (F : Frame)
    (l : Landmarks) (side : ℤ) (cal : Calibration) :
    (Eye.construct inP locate best F l side cal).2.2 = F ∧
      ∀ (e : Eye) (points : List ℕ), (Eye.isolate inP e F l points).2 = F := by
  refine ⟨?_, fun e points => rfl⟩
  unfold Eye.construct Eye.analyze
  by_cases h0 : side = 0
  · rw [if_pos h0]
    rfl
  · rw [if_neg h0]
    by_cases h1 : side = 1
    · rw [if_pos h1]
      rfl
    · rw [if_neg h1]

/-- C10: for a valid side, construction assigns every field of the Eye:
frame, origin, center, landmark points and blinking are all set (blinking
possibly to the inner None), and the pupil field holds exactly the Pupil
Locator's result on the isolated frame at the calibration's current
threshold for this side — whatever the calibration state is, complete or
not. -/
theorem construct_assigns_all_fields (inP : List (ℤ × ℤ) → ℕ → ℕ → Bool)
    (locate : Frame → ℕ → Option (ℤ × ℤ)) (best : Frame → ℕ) (F : Frame)
    (l : Landmarks) (side : ℤ) (cal : Calibration) (hs : side = 0 ∨ side = 1) :
    (Eye.construct inP locate best F l side cal).1.frame.isSome = true ∧
      (Eye.construct inP locate best F l side cal).1.origin.isSome = true ∧
      (Eye.construct inP locate best F l side cal).1.center.isSome = true ∧
      (Eye.construct inP locate best F l side cal).1.landmark_points.isSome = true ∧
      (Eye.construct inP locate best F l side cal).1.blinking.isSome = true ∧
      (Eye.construct inP locate best F l side cal).1.pupil =
        some (locate ((Eye.construct inP locate best F l side cal).1.frame.getD [])
          ((Eye.construct inP locate best F l side cal).2.1.threshold side)) := by
  rcases hs with h | h <;> subst h <;> exact ⟨rfl, rfl, rfl, rfl, rfl, rfl⟩

/-- Witness for C10 at side 0, an incomplete calibration and concrete
collaborators. -/
theorem construct_assigns_all_fields_witness :
    (Eye.construct inP0 loc0 best0 F0 L1 0 cal0).1.frame.isSome = true ∧
      (Eye.construct inP0 loc0 best0 F0 L1 0 cal0).1.origin.isSome = true ∧
      (Eye.construct inP0 loc0 best0 F0 L1 0 cal0).1.center.isSome = true ∧
      (Eye.construct inP0 loc0 best0 F0 L1 0 cal0).1.landmark_points.isSome = true ∧
      (Eye.construct inP0 loc0 best0 F0 L1 0 cal0).1.blinking.isSome = true ∧
      (Eye.construct inP0 loc0 best0 F0 L1 0 cal0).1.pupil =
        some (loc0 ((Eye.construct inP0 loc0 best0 F0 L1 0 cal0).1.frame.getD [])
          ((Eye.construct inP0 loc0 best0 F0 L1 0 cal0).2.1.threshold 0)) :=
  construct_assigns_all_fields inP0 loc0 best0 F0 L1 0 cal0 (Or.inl rfl)

/-- C4 (counterexample): with the left history already at the sample
count but the right history empty (cal4), overall completion is false,
and analyze of the left eye still feeds the calibration: the left history
grows from [10, 10] to [10, 10, 99]. -/
theorem analyze_feeds_complete_side_cex :
    cal4.nb_frames ≤ cal4.thresholds_left.length ∧
      (Eye.construct inP0 loc0 best0 F0 L1 0 cal4).2.1.thresholds_left =
        [10, 10, 99] ∧
      cal4.thresholds_left = [10, 10] := by
  exact ⟨by decide, rfl, rfl⟩

/-- C4 (amended): for a valid side, the calibration is fed the isolated
eye frame exactly when is_complete() — which checks that BOTH sides have
reached the sample count — is false; once both sides are complete the
calibration state is returned untouched, but a side whose own history is
full is still fed while the other side lags. -/
theorem analyze_feeds_calibration_iff_incomplete
    (inP : List (ℤ × ℤ) → ℕ → ℕ → Bool) (locate : Frame → ℕ → Option (ℤ × ℤ))
    (best : Frame → ℕ) (F : Frame) (l : Landmarks) (side : ℤ)
    (cal : Calibration) (hs : side = 0 ∨ side = 1) :
    (Eye.construct inP locate best F l side cal).2.1 =
      (if cal.is_complete then cal
        else cal.evaluate best
          ((Eye.construct inP locate best F l side cal).1.frame.getD []) side) := by
  rcases hs with h | h <;> subst h <;> rfl

/-- Witness for C4 (amended) at side 0 and an incomplete calibration. -/
theorem analyze_feeds_calibration_iff_incomplete_witness :
    (Eye.construct inP0 loc0 best0 F0 L1 0 cal0).2.1 =
      (if cal0.is_complete then cal0
        else cal0.evaluate best0
          ((Eye.construct inP0 loc0 best0 F0 L1 0 cal0).1.frame.getD []) 0) :=
  analyze_feeds_calibration_iff_incomplete inP0 loc0 best0 F0 L1 0 cal0 (Or.inl rfl)

lemma maskedEye_length (inP : List (ℤ × ℤ) → ℕ → ℕ → Bool) (F : Frame)
    (r : List (ℤ × ℤ)) : (maskedEye inP F r).length = F.length := by
  unfold maskedEye
  rw [List.length_map, List.length_range]

lemma maskedEye_row_length (inP : List (ℤ × ℤ) → ℕ → ℕ → Bool) (F : Frame)
    (r : List (ℤ × ℤ)) (row : List ℕ) (hrow : row ∈ maskedEye inP F r) :
    row.length = frameWidth F := by
  unfold maskedEye at hrow
  rcases List.mem_map.mp hrow with ⟨y, _, hy⟩
  rw [← hy, List.length_map, List.length_range]

lemma isolate_frame_eq (inP : List (ℤ × ℤ) → ℕ → ℕ → Bool) (e : Eye)
    (F : Frame) (l : Landmarks) (points : List ℕ) :
    (Eye.isolate inP e F l points).1.frame =
      some ((pySlice (maskedEye inP F (regionOf l points))
          (minY (regionOf l points) - 5) (maxY (regionOf l points) + 5)).map
        (fun row =>
          pySlice row (minX (regionOf l points) - 5) (maxX (regionOf l points) + 5))) :=
  rfl

/-- C3 (counterexample): for the 6 points with bounding box columns 8..11
and rows 7..9 inside a 20 by 20 frame, the cropped frame is NOT the
bounding box expanded by a 5-pixel margin on all four sides (read
inclusively): that box has 13 pixel rows, the crop has 12. -/
theorem isolate_crop_box_cex :
    (Eye.isolate inP0 Eye.init F0 L3 [0, 1, 2, 3, 4, 5]).1.frame ≠
      some (cropIncl (maskedEye inP0 F0 (regionOf L3 [0, 1, 2, 3, 4, 5]))
        (minX (regionOf L3 [0, 1, 2, 3, 4, 5]) - 5)
        (minY (regionOf L3 [0, 1, 2, 3, 4, 5]) - 5)
        (maxX (regionOf L3 [0, 1, 2, 3, 4, 5]) + 5)
        (maxY (regionOf L3 [0, 1, 2, 3, 4, 5]) + 5)) := by
  decide

/-- C3 (amended): when the expanded box lies within the frame, isolation
crops the masked frame to the point set's bounding box expanded by 5
pixels on the left and top and read half-open at 5 past the maxima on the
right and bottom (so 4 margin pixels beyond the extreme point columns and
rows), and records origin = (min_x - 5, min_y - 5). -/
theorem isolate_crop_box (inP : List (ℤ × ℤ) → ℕ → ℕ → Bool) (e : Eye)
    (F : Frame) (l : Landmarks) (points : List ℕ)
    (hx0 : 5 ≤ minX (regionOf l points)) (hy0 : 5 ≤ minY (regionOf l points))
    (hx1 : maxX (regionOf l points) + 5 ≤ (frameWidth F : ℤ))
    (hy1 : maxY (regionOf l points) + 5 ≤ (F.length : ℤ)) :
    (Eye.isolate inP e F l points).1.frame =
        some (cropHO (maskedEye inP F (regionOf l points))
          (minX (regionOf l points) - 5) (minY (regionOf l points) - 5)
          (maxX (regionOf l points) + 5) (maxY (regionOf l points) + 5)) ∧
      (Eye.isolate inP e F l points).1.origin =
        some (minX (regionOf l points) - 5, minY (regionOf l points) - 5) := by
  refine ⟨?_, rfl⟩
  have hmm : minX (regionOf l points) ≤ maxX (regionOf l points) :=
    listMin_le_listMax _
  have hnn : minY (regionOf l points) ≤ maxY (regionOf l points) :=
    listMin_le_listMax _
  have hlen : ((maskedEye inP F (regionOf l points)).length : ℤ) = (F.length : ℤ) := by
    rw [maskedEye_length]
  rw [isolate_frame_eq,
    pySlice_eq_drop_take _ _ _ (by omega) (by omega) (by omega)]
  unfold cropHO
  refine congrArg some (List.map_congr_left ?_)
  intro row hrow
  have hmem : row ∈ maskedEye inP F (regionOf l points) :=
    List.mem_of_mem_drop (List.mem_of_mem_take hrow)
  have hrl : (row.length : ℤ) = (frameWidth F : ℤ) := by
    rw [maskedEye_row_length inP F _ row hmem]
  exact pySlice_eq_drop_take _ _ _ (by omega) (by omega) (by omega)

/-- Witness for C3 (amended) at the concrete frame F0 and points L3. -/
theorem isolate_crop_box_witness :
    (Eye.isolate inP0 Eye.init F0 L3 [0, 1, 2, 3, 4, 5]).1.frame =
        some (cropHO (maskedEye inP0 F0 (regionOf L3 [0, 1, 2, 3, 4, 5]))
          (minX (regionOf L3 [0, 1, 2, 3, 4, 5]) - 5)
          (minY (regionOf L3 [0, 1, 2, 3, 4, 5]) - 5)
          (maxX (regionOf L3 [0, 1, 2, 3, 4, 5]) + 5)
          (maxY (regionOf L3 [0, 1, 2, 3, 4, 5]) + 5)) ∧
      (Eye.isolate inP0 Eye.init F0 L3 [0, 1, 2, 3, 4, 5]).1.origin =
        some (minX (regionOf L3 [0, 1, 2, 3, 4, 5]) - 5,
          minY (regionOf L3 [0, 1, 2, 3, 4, 5]) - 5) :=
  isolate_crop_box inP0 Eye.init F0 L3 [0, 1, 2, 3, 4, 5] (by decide) (by decide)
    (by decide) (by decide)

end Gaze
